import Mathlib

/-!
Verification of the generation-orchestration pipeline of the ai-video-factory
repository: the quota-triggered fallback decision logic of
`src/services/geminiService.ts` (`generateVideo`, `findStockVideo`,
`generateMultiClipFallback`), the task state machine of the batch generator
(`processTask`), and the caption parser / multi-clip playback engine
(`parseVtt`, `handleTimeUpdate`).

JavaScript strings are modelled as Lean `String`s with the string operations
the code uses (`includes`, `toLowerCase`, `split`) re-implemented over
character lists so that every definition evaluates by kernel reduction.
JavaScript numbers are modelled as `ℚ`; the special values `NaN` and
`undefined` (which the caption parser can produce and propagate) are modelled
by `Option ℚ` with `none` standing for not-a-number.
-/

/-! ## JavaScript string primitives -/

/-- `sub` occurs as a contiguous run inside `l`. -/
def charOccurs (sub : List Char) : List Char → Bool
  | [] => sub.isEmpty
  | c :: t => sub.isPrefixOf (c :: t) || charOccurs sub t

/-- Model of JavaScript `String.prototype.includes`. -/
def jsIncludes (s sub : String) : Bool :=
  charOccurs sub.data s.data

/-- Model of JavaScript `String.prototype.toLowerCase` (character-wise). -/
def jsToLower (s : String) : String :=
  ⟨s.data.map Char.toLower⟩

/-! ## `generateVideo` failure handling (src/services/geminiService.ts 267-281)

The `catch` block of `generateVideo` classifies the failure thrown during
primary generation.  Its observable outcome is one of: invoking
`generateMultiClipFallback` on the available script, throwing a fresh error
with a fixed message, or rethrowing the original error. -/

/-- The voice selector (`TTSVoice` in src/types.ts); `none` is the silent
sentinel. -/
inductive TTSVoice
  | none
  | Kore
  | Puck
  | Charon
  | Fenrir
  | Zephyr
deriving DecidableEq

/-- Message of the error thrown when a recoverable failure is handled but no
script is available (src/services/geminiService.ts line 272). -/
def cannotFallbackMessage : String := "Cannot generate fallback without a script."

/-- Message of the error thrown for an authentication failure
(src/services/geminiService.ts line 277). -/
def authGuidanceMessage : String :=
  "API key not found or invalid. Please re-select your API key."

/-- The recoverability test of line 270:
`errorMessage.toLowerCase().includes('quota') || errorMessage.toLowerCase().includes('billing')`. -/
def quotaOrBilling (errorMessage : String) : Bool :=
  jsIncludes (jsToLower errorMessage) "quota" ||
    jsIncludes (jsToLower errorMessage) "billing"

/-- Observable outcome of `generateVideo`'s catch block. -/
inductive CatchOutcome
  | fallback (script : String)
  | fatal (message : String)
  | rethrow (message : String)
deriving DecidableEq

/-- The catch block of `generateVideo` (lines 267-281), as a function of the
failure's message and of the value of `finalScript` at the time of the
failure.  `!finalScript` in JavaScript is truth of `finalScript = ""`. -/
def handleGenerationFailure (errorMessage finalScript : String) : CatchOutcome :=
  if quotaOrBilling errorMessage then
    if finalScript = "" then .fatal cannotFallbackMessage
    else .fallback finalScript
  else if jsIncludes errorMessage "Requested entity was not found" then
    .fatal authGuidanceMessage
  else
    .rethrow errorMessage

/-- Lines 213-217 of `generateVideo`: `finalScript` starts as the caller's
`script` and, when empty with a non-silent voice, is replaced by the script
the external call generates (modelled by the parameter `generatedScript`).
This happens before the `try` block, so it is the value the catch block
sees. -/
def finalScriptOf (script generatedScript : String) (voice : TTSVoice) : String :=
  if script = "" ∧ voice ≠ TTSVoice.none then generatedScript else script

/-- The catch block as reached through `generateVideo`: the failure handler
applied to the `finalScript` computed before primary generation. -/
def generateVideoCatch (script generatedScript : String) (voice : TTSVoice)
    (errorMessage : String) : CatchOutcome :=
  handleGenerationFailure errorMessage (finalScriptOf script generatedScript voice)

/-- `true` exactly when the outcome invokes `generateMultiClipFallback`. -/
def invokesFallback : CatchOutcome → Bool
  | .fallback _ => true
  | _ => false

example : quotaOrBilling "Quota exceeded for project" = true := by decide
example : quotaOrBilling "Requested entity was not found" = false := by decide
example : handleGenerationFailure "BILLING hard limit reached" "s" =
    .fallback "s" := by decide
example : generateVideoCatch "" "" TTSVoice.none "quota" =
    .fatal cannotFallbackMessage := by decide
example : generateVideoCatch "" "gen" TTSVoice.Kore "quota" =
    .fallback "gen" := by decide
example : handleGenerationFailure "Requested entity was not found" "s" =
    .fatal authGuidanceMessage := by decide
example : handleGenerationFailure "socket hang up" "s" =
    .rethrow "socket hang up" := by decide

/-! ## Claims C1, C4, C5: classification of primary-generation failures -/

/-- C1, as stated, is false on the code: a failure whose message contains
"quota" reaching the catch block while no script is available (silent voice,
no pre-authored script, so `finalScript` is empty) does not invoke the
fallback path; `generateVideo` instead throws the cannot-build-fallback
error. -/
theorem fallback_iff_quota_counterexample :
    quotaOrBilling "Veo quota exhausted" = true ∧
    invokesFallback (generateVideoCatch "" "" TTSVoice.none "Veo quota exhausted") = false ∧
    generateVideoCatch "" "" TTSVoice.none "Veo quota exhausted" =
      .fatal cannotFallbackMessage := by
  decide

/-- C1 (amended): for every failure thrown during primary generation,
`generateVideo` invokes the fallback path exactly when the failure's message
contains "quota" or "billing" case-insensitively AND a script is available
(`finalScript` nonempty); in particular a failure whose message contains
neither substring never reaches the fallback path. -/
theorem fallback_invoked_iff_quota_and_script (script generatedScript : String)
    (voice : TTSVoice) (errorMessage : String) :
    invokesFallback (generateVideoCatch script generatedScript voice errorMessage) =
      (quotaOrBilling errorMessage &&
        !(finalScriptOf script generatedScript voice == "")) := by
  by_cases hq : quotaOrBilling errorMessage = true
  · by_cases hs : finalScriptOf script generatedScript voice = "" <;>
      simp [generateVideoCatch, handleGenerationFailure, hq, hs, invokesFallback]
  · rw [Bool.not_eq_true] at hq
    by_cases ha : jsIncludes errorMessage "Requested entity was not found" = true <;>
      simp [generateVideoCatch, handleGenerationFailure, hq, ha, invokesFallback]

/-- C4, as stated, is false on the code: an authentication failure is fatal
and the fallback is not invoked, but the failure is NOT surfaced verbatim -
the thrown error carries only the fixed guidance message, which does not
contain the original failure text. -/
theorem auth_surfaced_verbatim_counterexample :
    generateVideoCatch "my script" "" TTSVoice.Kore "Requested entity was not found" =
      .fatal authGuidanceMessage ∧
    jsIncludes authGuidanceMessage "Requested entity was not found" = false := by
  decide

/-- C4 (amended): every primary-generation failure whose message contains
'Requested entity was not found' and does not satisfy the quota/billing test
(which the code checks first) is fatal - the fallback path is never invoked -
and `generateVideo` throws the fixed guidance message telling the user to
reselect credentials, replacing the original failure. -/
theorem auth_failure_fatal (errorMessage finalScript : String)
    (hq : quotaOrBilling errorMessage = false)
    (ha : jsIncludes errorMessage "Requested entity was not found" = true) :
    handleGenerationFailure errorMessage finalScript = .fatal authGuidanceMessage := by
  simp [handleGenerationFailure, hq, ha]

theorem auth_failure_fatal_witness :
    handleGenerationFailure "Requested entity was not found" "s" =
      .fatal authGuidanceMessage :=
  auth_failure_fatal "Requested entity was not found" "s" (by decide) (by decide)

/-- C5, as stated, is false on the code: a request with the silent voice and
no script does NOT run the substitute path on a recoverable failure - the
check `if (!finalScript) throw ...` fires precisely in that case, so the task
fails fatally with the cannot-build-fallback error. -/
theorem silent_no_script_counterexample :
    invokesFallback
        (generateVideoCatch "" "" TTSVoice.none "billing: payment required") = false ∧
    generateVideoCatch "" "" TTSVoice.none "billing: payment required" =
      .fatal cannotFallbackMessage := by
  decide

/-- C5 (amended): when a recoverable (quota/billing) primary failure is
handled, the cannot-build-fallback error is thrown exactly when the script
available at that point (`finalScript`) is empty - i.e. when the caller
supplied no script and either the voice was silent (no script is generated)
or the up-front script generation produced an empty script; with any
nonempty script the substitute path runs. -/
theorem cannot_fallback_iff_no_script (script generatedScript : String)
    (voice : TTSVoice) (errorMessage : String)
    (hq : quotaOrBilling errorMessage = true) :
    generateVideoCatch script generatedScript voice errorMessage =
        .fatal cannotFallbackMessage ↔
      finalScriptOf script generatedScript voice = "" := by
  by_cases hs : finalScriptOf script generatedScript voice = "" <;>
    simp [generateVideoCatch, handleGenerationFailure, hq, hs, cannotFallbackMessage]

theorem cannot_fallback_iff_no_script_witness :
    generateVideoCatch "" "" TTSVoice.none "quota reached" =
        .fatal cannotFallbackMessage ↔
      finalScriptOf "" "" TTSVoice.none = "" :=
  cannot_fallback_iff_no_script "" "" TTSVoice.none "quota reached" (by decide)

/-! ## Claim C2: task status state machine (src/unnamed/part_001, `processTask`)

`processTask` first rewrites its task's status to `generating` (line 329);
the progress callback passed to `generateVideo` rewrites only
`progressMessage` (line 340-341); on resolution the status becomes `success`
(lines 359-360), on rejection `error` (line 384).  Tasks are created with
status `pending` and `processTask` is invoked on `pending` tasks
(`handleGenerate`, `handleProcessQueue`). -/

/-- Task status (`'pending' | 'generating' | 'success' | 'error'` in
src/types.ts). -/
inductive TaskStatus
  | pending
  | generating
  | success
  | error
deriving DecidableEq

/-- `success` and `error` are the terminal statuses. -/
def isTerminal : TaskStatus → Bool
  | .success => true
  | .error => true
  | _ => false

/-- How the `generateVideo` promise settles in `processTask`'s `await`. -/
inductive TaskOutcome
  | ok
  | err (message : String)

/-- Terminal status `processTask` assigns for each way the awaited promise
settles. -/
def terminalStatusOf : TaskOutcome → TaskStatus
  | .ok => .success
  | .err _ => .error

/-- The task-record updates `processTask` performs, in program order. -/
inductive TaskEvent
  | startGenerating
  | progress (message : String)
  | succeed
  | fail (message : String)

/-- Status after an update: progress callbacks leave the status unchanged. -/
def statusAfter : TaskEvent → TaskStatus → TaskStatus
  | .startGenerating, _ => .generating
  | .progress _, s => s
  | .succeed, _ => .success
  | .fail _, _ => .error

/-- Update sequence of one `processTask` run: `generating` on entry, then the
progress callbacks fired while awaiting `generateVideo`, then the terminal
update. -/
def processTaskEvents (progressMessages : List String) (outcome : TaskOutcome) :
    List TaskEvent :=
  .startGenerating :: (progressMessages.map TaskEvent.progress ++
    [match outcome with
     | .ok => TaskEvent.succeed
     | .err m => TaskEvent.fail m])

/-- The statuses the task holds across a `processTask` run, starting from the
`pending` status it was created with. -/
def processTaskStatusTrace (progressMessages : List String)
    (outcome : TaskOutcome) : List TaskStatus :=
  (processTaskEvents progressMessages outcome).scanl
    (fun s e => statusAfter e s) .pending

/-- The forward edges of the status machine claimed by the spec. -/
def statusStep : TaskStatus → TaskStatus → Bool
  | .pending, .generating => true
  | .generating, .success => true
  | .generating, .error => true
  | _, _ => false

/-- Two consecutive observed statuses either coincide (no move) or lie on a
forward edge. -/
def statusRel (a b : TaskStatus) : Prop := a = b ∨ statusStep a b = true

theorem scanl_progress_shape (msgs : List String) (e : TaskEvent)
    (s : TaskStatus) :
    List.scanl (fun st ev => statusAfter ev st) s
        (msgs.map TaskEvent.progress ++ [e]) =
      List.replicate (msgs.length + 1) s ++ [statusAfter e s] := by
  induction msgs with
  | nil => simp [List.scanl]
  | cons m t ih => simp_all [List.scanl, statusAfter, List.replicate_succ]

theorem processTaskStatusTrace_shape (msgs : List String)
    (outcome : TaskOutcome) :
    processTaskStatusTrace msgs outcome =
      TaskStatus.pending ::
        (List.replicate (msgs.length + 1) TaskStatus.generating ++
          [terminalStatusOf outcome]) := by
  unfold processTaskStatusTrace processTaskEvents
  rw [List.scanl_cons, scanl_progress_shape]
  cases outcome <;> rfl

theorem chain_replicate_generating (n : Nat) (t : TaskStatus)
    (h : statusStep TaskStatus.generating t = true) :
    List.Chain' statusRel
      (TaskStatus.generating :: (List.replicate n TaskStatus.generating ++ [t])) := by
  induction n with
  | zero => simpa [List.chain'_cons, statusRel] using Or.inr h
  | succ k ih =>
    rw [List.replicate_succ, List.cons_append, List.chain'_cons]
    exact ⟨Or.inl rfl, ih⟩

/-- C2: for every task processed by the orchestrator (any progress-message
sequence and either way the awaited generation settles), the observed status
sequence starts at `pending`, every move follows a forward edge
`pending → generating → {success, error}` (so it never reverses and never
skips `generating`), the task is set to `generating` immediately after
`pending` and before anything else, every status that is followed by a
further status is non-terminal (a task never leaves a terminal status), and
the run ends in the terminal status matching the outcome. -/
theorem processTask_status_monotone (msgs : List String) (outcome : TaskOutcome) :
    List.Chain' statusRel (processTaskStatusTrace msgs outcome) ∧
    (∃ rest, processTaskStatusTrace msgs outcome =
      TaskStatus.pending :: TaskStatus.generating :: rest) ∧
    (∀ s ∈ (processTaskStatusTrace msgs outcome).dropLast, isTerminal s = false) ∧
    (processTaskStatusTrace msgs outcome).getLast? =
      some (terminalStatusOf outcome) := by
  have hstep : statusStep TaskStatus.generating (terminalStatusOf outcome) = true := by
    cases outcome <;> rfl
  rw [processTaskStatusTrace_shape]
  refine ⟨?_, ?_, ?_, ?_⟩
  · rw [List.chain'_cons']
    refine ⟨?_, chain_replicate_generating _ _ hstep⟩
    intro b hb
    rw [List.replicate_succ, List.cons_append, List.head?_cons,
      Option.mem_some_iff] at hb
    exact hb ▸ Or.inr rfl
  · exact ⟨_, by rw [List.replicate_succ, List.cons_append]⟩
  · intro s hs
    rw [← List.cons_append, List.dropLast_concat] at hs
    rcases List.mem_cons.mp hs with h | h
    · rw [h]; rfl
    · rw [List.eq_of_mem_replicate h]; rfl
  · rw [← List.cons_append, List.getLast?_concat]

/-! ## Claim C6: stock-source resolution (src/services/geminiService.ts 37-79)

`findStockVideo` wraps the keyword-extraction call and both provider blocks
in one `try`; the `catch` logs and control reaches `return null`.  A provider
interaction is modelled by its outcome as the code observes it: the
`fetch`/JSON decoding may throw, the response may be non-ok or carry no
usable video file, or a playable URL is selected. -/

/-- Outcome of one provider block's network interaction. -/
inductive ProviderOutcome
  | thrown
  | noMatch
  | found (url : String)
deriving DecidableEq

/-- The URL a provider outcome contributes, if any. -/
def foundUrl : ProviderOutcome → Option String
  | .found url => some url
  | _ => none

/-- First-of-two choice: provider A's URL when it has one, else provider B's. -/
def firstFound (a b : Option String) : Option String :=
  match a with
  | some url => some url
  | none => b

/-- The `try` body of `findStockVideo`: extract keywords (may throw), then,
guarded by the truthiness of each key (`""` is falsy), try Pexels then
Pixabay, returning the first URL found; `.error` is a thrown exception
escaping the body. -/
def findStockVideoBody (pexelsApiKey pixabayApiKey : String)
    (keywordCall : Except Unit String)
    (pexelsCall pixabayCall : String → ProviderOutcome) :
    Except Unit (Option String) :=
  match keywordCall with
  | .error e => .error e
  | .ok query =>
    match (if pexelsApiKey ≠ "" then pexelsCall query else .noMatch) with
    | .thrown => .error ()
    | .found url => .ok (some url)
    | .noMatch =>
      match (if pixabayApiKey ≠ "" then pixabayCall query else .noMatch) with
      | .thrown => .error ()
      | .found url => .ok (some url)
      | .noMatch => .ok none

/-- `findStockVideo`: the body under the surrounding `try`/`catch`; any
exception is caught (and logged) and the function returns `null`.  The
function is total, so no exception ever reaches the caller. -/
def findStockVideo (pexelsApiKey pixabayApiKey : String)
    (keywordCall : Except Unit String)
    (pexelsCall pixabayCall : String → ProviderOutcome) : Option String :=
  match findStockVideoBody pexelsApiKey pixabayApiKey keywordCall
      pexelsCall pixabayCall with
  | .error _ => none
  | .ok r => r

example :
    findStockVideo "pk" "xk" (.ok "q") (fun _ => .noMatch)
      (fun _ => .found "https://pixabay.example/v.mp4") =
    some "https://pixabay.example/v.mp4" := by decide

/-- C6, as stated, is false on the code: when the Pexels call throws (rather
than returning a non-ok response or no match), the exception jumps to the
shared `catch`, so Pixabay is NOT tried and resolution returns `null` even
though Pixabay is configured and would return a URL; had Pexels merely
returned no match, the same Pixabay call would have been reached and its URL
returned.  (The exception is still contained: the caller sees `null`, not a
throw.) -/
theorem provider_b_after_exception_counterexample :
    findStockVideo "pk" "xk" (.ok "city skyline") (fun _ => .thrown)
        (fun _ => .found "https://pixabay.example/v.mp4") = none ∧
    findStockVideo "pk" "xk" (.ok "city skyline") (fun _ => .noMatch)
        (fun _ => .found "https://pixabay.example/v.mp4") =
      some "https://pixabay.example/v.mp4" := by
  decide

/-- C6 (amended): Pexels is tried before Pixabay and the first URL found is
returned; a provider call that returns a non-success response or no usable
match is skipped without aborting the overall resolution (so Pixabay is
still tried after such a Pexels failure), and `none` is then returned only
when no configured provider yields a match or no credentials were supplied;
a provider-level (or keyword-extraction) exception, however, while caught
and never propagated to the caller, aborts the remaining resolution and
yields `none`. -/
theorem findStockVideo_resolution (pexelsApiKey pixabayApiKey query : String)
    (pexelsCall pixabayCall : String → ProviderOutcome) :
    (pexelsCall query ≠ ProviderOutcome.thrown →
      pixabayCall query ≠ ProviderOutcome.thrown →
      findStockVideo pexelsApiKey pixabayApiKey (.ok query)
          pexelsCall pixabayCall =
        firstFound
          (if pexelsApiKey ≠ "" then foundUrl (pexelsCall query) else none)
          (if pixabayApiKey ≠ "" then foundUrl (pixabayCall query) else none)) ∧
    (pexelsApiKey ≠ "" → pexelsCall query = ProviderOutcome.thrown →
      findStockVideo pexelsApiKey pixabayApiKey (.ok query)
        pexelsCall pixabayCall = none) ∧
    ((pexelsApiKey = "" ∨ pexelsCall query = ProviderOutcome.noMatch) →
      pixabayApiKey ≠ "" → pixabayCall query = ProviderOutcome.thrown →
      findStockVideo pexelsApiKey pixabayApiKey (.ok query)
        pexelsCall pixabayCall = none) ∧
    (∀ e, findStockVideo pexelsApiKey pixabayApiKey (.error e)
      pexelsCall pixabayCall = none) := by
  refine ⟨?_, ?_, ?_, ?_⟩
  · intro hpe hpx
    by_cases hk : pexelsApiKey ≠ "" <;>
      by_cases hx : pixabayApiKey ≠ "" <;>
        cases he : pexelsCall query <;> cases hb : pixabayCall query <;>
          simp_all [findStockVideo, findStockVideoBody, foundUrl, firstFound]
  · intro hk he
    simp [findStockVideo, findStockVideoBody, hk, he]
  · intro hae hx hb
    rcases hae with hk | he
    · simp [findStockVideo, findStockVideoBody, hk, hx, hb]
    · simp [findStockVideo, findStockVideoBody, he, hx, hb]
  · intro e
    rfl

/-! ## Claim C3: multi-clip fallback assembly
(src/services/geminiService.ts 158-187) -/

/-- A scene produced by the Scene Segmenter. -/
structure Scene where
  scene_description : String
  narration : String

/-- The generic placeholder video used when a scene's lookup yields no URL
(src/services/geminiService.ts line 182). -/
def genericFallback : String :=
  "https://storage.googleapis.com/gtv-videos-bucket/sample/ForBiggerFun.mp4"

/-- JavaScript `url || genericFallback`: `null`/`undefined` and the empty
string are falsy. -/
def jsOrDefault (url : Option String) (dflt : String) : String :=
  match url with
  | none => dflt
  | some s => if s = "" then dflt else s

/-- The record `generateMultiClipFallback` returns (line 186). -/
structure FallbackResult where
  videoUrls : List String
  audioBlob : Option String
  vttContent : Option String
  isFallback : Bool
  isStitched : Bool
deriving DecidableEq

/-- `generateMultiClipFallback` (lines 158-187) with its external calls as
parameters: `scenes` is the list the Scene Segmenter returned, `narration`
the (audio, captions) pair `generateNarrationFromScript` produces - requested
exactly when the voice is not silent - and `lookup i` the settled value of
the `i`-th `findStockVideo` promise.  The promises are created left to right
by `scenes.map` before any is awaited (parallel fan-out) and `Promise.all`
delivers their values in that same array order however they complete, which
is what indexing the settled values by scene position models. -/
def generateMultiClipFallback (voice : TTSVoice) (narration : String × String)
    (scenes : List Scene) (lookup : Nat → Option String) : FallbackResult :=
  let resolvedVideoUrls := (List.range scenes.length).map lookup
  { videoUrls := resolvedVideoUrls.map (fun url => jsOrDefault url genericFallback)
    audioBlob := if voice ≠ TTSVoice.none then some narration.1 else none
    vttContent := if voice ≠ TTSVoice.none then some narration.2 else none
    isFallback := true
    isStitched := true }

/-- C3: for every scene list of length N returned by the segmenter and every
way the N stock-video lookups settle, the assembled video-URL list has
exactly N entries in original scene order - entry `i` is the `i`-th scene's
resolved URL, or the generic placeholder when that lookup settled with no
URL - and the result carries `isFallback = true` and `isStitched = true`. -/
theorem multiClipFallback_assembly (voice : TTSVoice)
    (narration : String × String) (scenes : List Scene)
    (lookup : Nat → Option String) :
    (generateMultiClipFallback voice narration scenes lookup).videoUrls.length =
        scenes.length ∧
    (∀ i, i < scenes.length →
      (generateMultiClipFallback voice narration scenes lookup).videoUrls[i]? =
        some (jsOrDefault (lookup i) genericFallback)) ∧
    (generateMultiClipFallback voice narration scenes lookup).isFallback = true ∧
    (generateMultiClipFallback voice narration scenes lookup).isStitched = true := by
  refine ⟨by simp [generateMultiClipFallback], ?_, rfl, rfl⟩
  intro i hi
  simp [generateMultiClipFallback, List.getElem?_map, List.getElem?_range hi]


/-! ## Caption Timeline Parser (src/unnamed/part_004, `parseVtt`, lines 167-183)

The parser splits the document on newlines and, for every line containing
`-->`, splits the line on the arrow, splits each side on `:`, applies
`parseFloat` to each piece and combines the pieces into seconds.  JavaScript
`parseFloat` yields `NaN` on inputs without a leading number, and `NaN`
(together with `undefined` from out-of-range array access) propagates through
the arithmetic; both are modelled by `none`. -/

/-- Append a character to the front of the first chunk of a split result. -/
def consHead (c : Char) : List (List Char) → List (List Char)
  | [] => [[c]]
  | h :: t => (c :: h) :: t

/-- Fuelled splitter: chunks of `l` between non-overlapping occurrences of
`sep`, scanned left to right.  Any `fuel ≥ l.length` gives the same result
(each step consumes at least one character); callers pass `l.length`. -/
def splitSepFuel (sep : List Char) : Nat → List Char → List (List Char)
  | _, [] => [[]]
  | 0, l => [l]
  | fuel + 1, c :: t =>
    if sep.isPrefixOf (c :: t) then
      [] :: splitSepFuel sep fuel (t.drop (sep.length - 1))
    else
      consHead c (splitSepFuel sep fuel t)

/-- Model of JavaScript `String.prototype.split` with a nonempty string
separator. -/
def jsSplit (s sep : String) : List String :=
  (splitSepFuel sep.data s.data.length s.data).map (fun l => ⟨l⟩)

example : jsSplit "00:02.500" ":" = ["00", "02.500"] := by decide
example : jsSplit "a --> b --> c" " --> " = ["a", "b", "c"] := by decide
example : jsSplit "WEBVTT\n\nx" "\n" = ["WEBVTT", "", "x"] := by decide

/-- Longest leading run of decimal digits of `l`, accumulating onto the
value `v` already read and the count `n` of digits already read. -/
def digitsAux : List Char → Nat → Nat → Nat × Nat × List Char
  | [], v, n => (v, n, [])
  | c :: t, v, n =>
    if c.isDigit then digitsAux t (10 * v + (c.toNat - 48)) (n + 1)
    else (v, n, c :: t)

/-- The decimal literal `parseFloat` reads from the front of a token: sign,
integer-part value, fraction value and fraction digit count; it denotes
`±(intPart + fracVal / 10 ^ fracDigits)`. -/
structure FloatRepr where
  neg : Bool
  intPart : Nat
  fracVal : Nat
  fracDigits : Nat
deriving DecidableEq

/-- Model of JavaScript `parseFloat` on the token shapes a split timing line
can contain, first stage: the longest prefix consisting of an optional sign,
decimal digits and an optional fractional part; `none` models `NaN` (no
leading number at all).  Exponent forms, `Infinity` and leading whitespace
never occur in these tokens and are not modelled. -/
def parseFloatRepr (s : String) : Option FloatRepr :=
  let signBody : Bool × List Char :=
    match s.data with
    | '-' :: t => (true, t)
    | '+' :: t => (false, t)
    | t => (false, t)
  match digitsAux signBody.2 0 0 with
  | (_, 0, rest) =>
    match rest with
    | '.' :: t =>
      match digitsAux t 0 0 with
      | (_, 0, _) => none
      | (fv, fn + 1, _) => some ⟨signBody.1, 0, fv, fn + 1⟩
    | _ => none
  | (iv, _ + 1, rest) =>
    match rest with
    | '.' :: t =>
      match digitsAux t 0 0 with
      | (fv, fn, _) => some ⟨signBody.1, iv, fv, fn⟩
    | _ => some ⟨signBody.1, iv, 0, 0⟩

/-- The rational a parsed decimal literal denotes. -/
def FloatRepr.toQ (r : FloatRepr) : ℚ :=
  (cond r.neg (-1) 1) * (r.intPart + (r.fracVal : ℚ) / 10 ^ r.fracDigits)

/-- Model of JavaScript `parseFloat` (`none` is NaN). -/
def parseFloat (s : String) : Option ℚ :=
  (parseFloatRepr s).map FloatRepr.toQ

example : parseFloatRepr "02.500" = some ⟨false, 2, 500, 3⟩ := by decide
example : parseFloatRepr "00" = some ⟨false, 0, 0, 0⟩ := by decide
example : parseFloatRepr "garbage" = none := by decide
example : parseFloatRepr "-1.5" = some ⟨true, 1, 5, 1⟩ := by decide
example : parseFloat "02.500" = some (5/2) := by
  rw [parseFloat, show parseFloatRepr "02.500" = some ⟨false, 2, 500, 3⟩ from by decide]
  norm_num [FloatRepr.toQ]

/-- NaN-propagating multiplication (`none` is NaN or `undefined`). -/
def nanMul (a : Option ℚ) (k : ℚ) : Option ℚ := a.map (· * k)

/-- NaN-propagating addition. -/
def nanAdd : Option ℚ → Option ℚ → Option ℚ
  | some a, some b => some (a + b)
  | _, _ => none

/-- The timestamp-to-seconds arrow function inside `parseVtt` (lines
173-177): split on `:`, `parseFloat` each piece, then
`parts[0]*3600 + parts[1]*60 + parts[2]` when more than two pieces, else
`parts[0]*60 + parts[1]` (an out-of-range `parts[i]` is `undefined` and
makes the sum NaN). -/
def parseTime (time : String) : Option ℚ :=
  let parts := (jsSplit time ":").map parseFloat
  if parts.length > 2 then
    nanAdd (nanAdd (nanMul (parts.getD 0 none) 3600) (nanMul (parts.getD 1 none) 60))
      (parts.getD 2 none)
  else
    nanAdd (nanMul (parts.getD 0 none) 60) (parts.getD 1 none)

/-- A parsed cue; the source field `end` is a Lean keyword and is named
`stop` here. -/
structure RawCue where
  start : Option ℚ
  stop : Option ℚ
deriving DecidableEq

/-- The destructuring `const [start, end] = line.split(' --> ').map(...)`
(lines 173-177): element 1 of a one-element split is `undefined`. -/
def parseCueLine (line : String) : RawCue :=
  let mapped := (jsSplit line " --> ").map parseTime
  { start := mapped.getD 0 none, stop := mapped.getD 1 none }

/-- `parseVtt` (lines 167-183): empty documents give no cues; otherwise every
line containing `-->` pushes one cue, in document order. -/
def parseVtt (vttContent : String) : List RawCue :=
  if vttContent = "" then []
  else
    (jsSplit vttContent "\n").foldl
      (fun cues line =>
        if jsIncludes line "-->" then cues ++ [parseCueLine line] else cues) []

/-- The lines of a document that carry a timing marker. -/
def timingLines (doc : String) : List String :=
  (jsSplit doc "\n").filter (fun line => jsIncludes line "-->")

/-! ### Evaluation facts for the spec's concrete caption document -/

theorem parseFloat_00 : parseFloat "00" = some 0 := by
  rw [parseFloat, show parseFloatRepr "00" = some ⟨false, 0, 0, 0⟩ from by decide]
  norm_num [FloatRepr.toQ]

theorem parseFloat_00000 : parseFloat "00.000" = some 0 := by
  rw [parseFloat, show parseFloatRepr "00.000" = some ⟨false, 0, 0, 3⟩ from by decide]
  norm_num [FloatRepr.toQ]

theorem parseFloat_02500 : parseFloat "02.500" = some (5/2) := by
  rw [parseFloat, show parseFloatRepr "02.500" = some ⟨false, 2, 500, 3⟩ from by decide]
  norm_num [FloatRepr.toQ]

theorem parseFloat_05000 : parseFloat "05.000" = some 5 := by
  rw [parseFloat, show parseFloatRepr "05.000" = some ⟨false, 5, 0, 3⟩ from by decide]
  norm_num [FloatRepr.toQ]

theorem parseTime_000 : parseTime "00:00.000" = some 0 := by
  simp only [parseTime, show jsSplit "00:00.000" ":" = ["00", "00.000"] from by decide,
    List.map_cons, List.map_nil, parseFloat_00, parseFloat_00000]
  norm_num [nanAdd, nanMul, List.getD_cons_zero, List.getD_cons_succ]

theorem parseTime_025 : parseTime "00:02.500" = some (5/2) := by
  simp only [parseTime, show jsSplit "00:02.500" ":" = ["00", "02.500"] from by decide,
    List.map_cons, List.map_nil, parseFloat_00, parseFloat_02500]
  norm_num [nanAdd, nanMul, List.getD_cons_zero, List.getD_cons_succ]

theorem parseTime_050 : parseTime "00:05.000" = some 5 := by
  simp only [parseTime, show jsSplit "00:05.000" ":" = ["00", "05.000"] from by decide,
    List.map_cons, List.map_nil, parseFloat_00, parseFloat_05000]
  norm_num [nanAdd, nanMul, List.getD_cons_zero, List.getD_cons_succ]

theorem parseCueLine_0_25 :
    parseCueLine "00:00.000 --> 00:02.500" = ⟨some 0, some (5/2)⟩ := by
  simp only [parseCueLine,
    show jsSplit "00:00.000 --> 00:02.500" " --> " = ["00:00.000", "00:02.500"] from by decide,
    List.map_cons, List.map_nil, parseTime_000, parseTime_025]
  simp [List.getD_cons_zero, List.getD_cons_succ]

theorem parseCueLine_25_5 :
    parseCueLine "00:02.500 --> 00:05.000" = ⟨some (5/2), some 5⟩ := by
  simp only [parseCueLine,
    show jsSplit "00:02.500 --> 00:05.000" " --> " = ["00:02.500", "00:05.000"] from by decide,
    List.map_cons, List.map_nil, parseTime_025, parseTime_050]
  simp [List.getD_cons_zero, List.getD_cons_succ]

/-- A push-style fold over lines equals mapping over the kept lines. -/
theorem foldl_push_filter {α β : Type} (p : α → Bool) (g : α → β) :
    ∀ (l : List α) (acc : List β),
      l.foldl (fun out x => if p x then out ++ [g x] else out) acc =
        acc ++ (l.filter p).map g := by
  intro l
  induction l with
  | nil => simp
  | cons a t ih =>
    intro acc
    by_cases hp : p a <;> simp [hp, ih, List.filter_cons]

/-- `parseVtt` is exactly one cue per timing line, in document order. -/
theorem parseVtt_eq_timingLines_map (doc : String) :
    parseVtt doc = (timingLines doc).map parseCueLine := by
  by_cases h : doc = ""
  · subst h; decide
  · simp only [parseVtt, timingLines, if_neg h]
    simpa using
      foldl_push_filter (fun line => jsIncludes line "-->") parseCueLine
        (jsSplit doc "\n") []

theorem parseVtt_example :
    parseVtt "WEBVTT\n\n00:00.000 --> 00:02.500\nHello\n\n00:02.500 --> 00:05.000\nWorld" =
      [⟨some 0, some (5/2)⟩, ⟨some (5/2), some 5⟩] := by
  rw [parseVtt_eq_timingLines_map,
    show timingLines
        "WEBVTT\n\n00:00.000 --> 00:02.500\nHello\n\n00:02.500 --> 00:05.000\nWorld" =
      ["00:00.000 --> 00:02.500", "00:02.500 --> 00:05.000"] from by decide,
    List.map_cons, List.map_cons, List.map_nil, parseCueLine_0_25, parseCueLine_25_5]

/-- C7: for every caption document, `parseVtt` returns one cue per timing
line (a line containing `-->`), in document order; a timing line splits on
the arrow into two timestamps each converted by the timestamp parser; a
timestamp whose colon-separated components all parse as numbers converts as
`h*3600 + m*60 + s` with three components and `m*60 + s` with two; and the
spec's concrete document yields exactly the cues `[(0, 2.5), (2.5, 5)]`. -/
theorem parseVtt_order_and_conversion :
    (∀ doc, parseVtt doc = (timingLines doc).map parseCueLine) ∧
    (∀ line a b, jsSplit line " --> " = [a, b] →
      parseCueLine line = ⟨parseTime a, parseTime b⟩) ∧
    (∀ t qh qm qs, (jsSplit t ":").map parseFloat = [some qh, some qm, some qs] →
      parseTime t = some (qh * 3600 + qm * 60 + qs)) ∧
    (∀ t qm qs, (jsSplit t ":").map parseFloat = [some qm, some qs] →
      parseTime t = some (qm * 60 + qs)) ∧
    parseVtt "WEBVTT\n\n00:00.000 --> 00:02.500\nHello\n\n00:02.500 --> 00:05.000\nWorld" =
      [⟨some 0, some (5/2)⟩, ⟨some (5/2), some 5⟩] := by
  refine ⟨parseVtt_eq_timingLines_map, ?_, ?_, ?_, parseVtt_example⟩
  · intro line a b h
    simp [parseCueLine, h, List.getD_cons_zero, List.getD_cons_succ]
  · intro t qh qm qs h
    simp [parseTime, h, nanAdd, nanMul, List.getD_cons_zero, List.getD_cons_succ]
  · intro t qm qs h
    simp [parseTime, h, nanAdd, nanMul, List.getD_cons_zero, List.getD_cons_succ]

/-- C8, as stated, is false on the code: a timing line with malformed
timestamps does not make parsing fail and the well-formed lines' cues are
still returned, but the malformed line is NOT skipped - it contributes a cue
of its own, with NaN (`none`) endpoints, so the document below parses to two
cues rather than one. -/
theorem malformed_line_skipped_counterexample :
    parseVtt "WEBVTT\n\nbad --> worse\n\n00:02.500 --> 00:05.000\nWorld" =
      [⟨none, none⟩, ⟨some (5/2), some 5⟩] ∧
    (parseVtt "WEBVTT\n\nbad --> worse\n\n00:02.500 --> 00:05.000\nWorld").length = 2 := by
  have h : parseVtt "WEBVTT\n\nbad --> worse\n\n00:02.500 --> 00:05.000\nWorld" =
      [⟨none, none⟩, ⟨some (5/2), some 5⟩] := by
    rw [parseVtt_eq_timingLines_map,
      show timingLines "WEBVTT\n\nbad --> worse\n\n00:02.500 --> 00:05.000\nWorld" =
        ["bad --> worse", "00:02.500 --> 00:05.000"] from by decide,
      List.map_cons, List.map_cons, List.map_nil,
      show parseCueLine "bad --> worse" = ⟨none, none⟩ from by decide,
      parseCueLine_25_5]
  exact ⟨h, by rw [h]; rfl⟩

/-- C8 (amended): a timing line whose timestamps are malformed does not make
parsing fail: the parser still returns one cue per timing line, so the cues
of the remaining well-formed timing lines are returned at their positions;
the malformed line, however, is not skipped - it contributes a cue with NaN
endpoints. -/
theorem malformed_timing_line_nan_cue (doc : String) :
    (parseVtt doc).length = (timingLines doc).length ∧
    (∀ i, i < (timingLines doc).length →
      (parseVtt doc)[i]? = some (parseCueLine ((timingLines doc).getD i ""))) ∧
    (∀ line a b, jsSplit line " --> " = [a, b] →
      parseTime a = none → parseTime b = none →
      parseCueLine line = ⟨none, none⟩) := by
  refine ⟨by rw [parseVtt_eq_timingLines_map]; simp, ?_, ?_⟩
  · intro i hi
    rw [parseVtt_eq_timingLines_map]
    simp [List.getElem?_map, List.getElem?_eq_getElem hi, List.getD_eq_getElem _ _ hi]
  · intro line a b h ha hb
    simp [parseCueLine, h, ha, hb, List.getD_cons_zero, List.getD_cons_succ]

/-! ## Multi-Clip Playback Engine (src/unnamed/part_004, `handleTimeUpdate`,
lines 230-247)

On every `timeupdate` of the master audio element the engine computes
`sceneCues.findIndex(cue => time >= cue.start && time < cue.end)`, switches
the video source when that index is in range and differs from the current
one (resuming playback if the master is playing), then corrects drift of the
video clock against the master.  Comparisons with NaN are false in
JavaScript, so a NaN cue never matches. -/

/-- `time >= cue.start` with NaN semantics (false when the bound is NaN). -/
def nanGe (a : ℚ) (b : Option ℚ) : Bool :=
  match b with
  | some q => decide (q ≤ a)
  | none => false

/-- `time < cue.end` with NaN semantics. -/
def nanLt (a : ℚ) (b : Option ℚ) : Bool :=
  match b with
  | some q => decide (a < q)
  | none => false

/-- The `findIndex` predicate of line 235: the cue's half-open interval
`[start, end)` contains the master time. -/
def cueContains (time : ℚ) (cue : RawCue) : Bool :=
  nanGe time cue.start && nanLt time cue.stop

/-- Model of JavaScript `Array.prototype.findIndex`: index of the first
match, `-1` when none matches. -/
def jsFindIndex {α : Type} (p : α → Bool) (l : List α) : ℤ :=
  match l.findIdx? p with
  | some i => (i : ℤ)
  | none => -1

/-- The mutable engine state `handleTimeUpdate` touches: the
`currentSceneIndex` ref (initialized to `-1`), the video element's source
and the video element's own clock. -/
structure PlayerState where
  currentSceneIndex : ℤ
  videoSrc : Option String
  videoTime : ℚ
deriving DecidableEq

/-- Lines 235-241: switch the video source exactly when the computed index
is not `-1`, indexes an available video source and differs from the current
index; the second component records whether `video.play()` was invoked
(`if (isPlaying) videoRef.current.play()`). -/
def sceneSwitchStep (sceneCues : List RawCue) (videoUrls : List String)
    (isPlaying : Bool) (time : ℚ) (st : PlayerState) : PlayerState × Bool :=
  let sceneIndex := jsFindIndex (cueContains time) sceneCues
  if sceneIndex ≠ -1 ∧ sceneIndex < (videoUrls.length : ℤ) ∧
      sceneIndex ≠ st.currentSceneIndex then
    ({ st with currentSceneIndex := sceneIndex,
               videoSrc := videoUrls[sceneIndex.toNat]? }, isPlaying)
  else (st, false)

/-- Lines 244-246: force the video clock to the master's value exactly when
they differ by more than half a second. -/
def driftCorrectionStep (time : ℚ) (st : PlayerState) : PlayerState :=
  if |st.videoTime - time| > 1/2 then { st with videoTime := time } else st

/-- One `handleTimeUpdate` tick: scene switch, then drift correction. -/
def handleTimeUpdate (sceneCues : List RawCue) (videoUrls : List String)
    (isPlaying : Bool) (time : ℚ) (st : PlayerState) : PlayerState × Bool :=
  let afterSwitch := sceneSwitchStep sceneCues videoUrls isPlaying time st
  (driftCorrectionStep time afterSwitch.1, afterSwitch.2)

theorem jsFindIndex_eq_coe {α : Type} (p : α → Bool) (l : List α) (i : ℕ) :
    jsFindIndex p l = (i : ℤ) ↔ l.findIdx? p = some i := by
  unfold jsFindIndex
  cases h : l.findIdx? p with
  | none => simp
  | some k => simp

theorem jsFindIndex_eq_neg_one {α : Type} (p : α → Bool) (l : List α) :
    jsFindIndex p l = -1 ↔ l.findIdx? p = none := by
  unfold jsFindIndex
  cases h : l.findIdx? p with
  | none => simp
  | some k => simp

theorem jsFindIndex_nonneg_of_ne {α : Type} (p : α → Bool) (l : List α)
    (h : jsFindIndex p l ≠ -1) : 0 ≤ jsFindIndex p l := by
  unfold jsFindIndex at h ⊢
  cases hf : l.findIdx? p with
  | none => rw [hf] at h; simp at h
  | some k => simp

theorem driftCorrectionStep_frame (time : ℚ) (st : PlayerState) :
    (driftCorrectionStep time st).currentSceneIndex = st.currentSceneIndex ∧
    (driftCorrectionStep time st).videoSrc = st.videoSrc := by
  unfold driftCorrectionStep
  split <;> exact ⟨rfl, rfl⟩

/-! ### The spec's concrete playback instances: cues `[(0,2),(2,5)]`, videos
`["v0","v1"]` -/

theorem engine_cue0_at_1 : cueContains 1 ⟨some 0, some 2⟩ = true := by
  simp [cueContains, nanGe, nanLt]

theorem engine_cue0_at_2 : cueContains 2 ⟨some 0, some 2⟩ = false := by
  simp [cueContains, nanGe, nanLt]

theorem engine_cue1_at_2 : cueContains 2 ⟨some 2, some 5⟩ = true := by
  norm_num [cueContains, nanGe, nanLt]

theorem engine_idx_at_1 :
    jsFindIndex (cueContains 1) [(⟨some 0, some 2⟩ : RawCue), ⟨some 2, some 5⟩] = 0 := by
  simp [jsFindIndex, List.findIdx?_cons, engine_cue0_at_1]

theorem engine_idx_at_2 :
    jsFindIndex (cueContains 2) [(⟨some 0, some 2⟩ : RawCue), ⟨some 2, some 5⟩] = 1 := by
  simp [jsFindIndex, List.findIdx?_cons, engine_cue0_at_2, engine_cue1_at_2]

theorem engine_idx_at_49 :
    jsFindIndex (cueContains (49/10)) [(⟨some 0, some 2⟩ : RawCue), ⟨some 2, some 5⟩] = 1 := by
  have h0 : cueContains (49/10) ⟨some 0, some 2⟩ = false := by
    norm_num [cueContains, nanGe, nanLt]
  have h1 : cueContains (49/10) ⟨some 2, some 5⟩ = true := by
    norm_num [cueContains, nanGe, nanLt]
  simp [jsFindIndex, List.findIdx?_cons, h0, h1]

theorem engine_idx_at_5 :
    jsFindIndex (cueContains 5) [(⟨some 0, some 2⟩ : RawCue), ⟨some 2, some 5⟩] = -1 := by
  have h0 : cueContains 5 ⟨some 0, some 2⟩ = false := by
    norm_num [cueContains, nanGe, nanLt]
  have h1 : cueContains 5 ⟨some 2, some 5⟩ = false := by
    norm_num [cueContains, nanGe, nanLt]
  simp [jsFindIndex, List.findIdx?_cons, h0, h1]

theorem engine_tick_at_1 :
    handleTimeUpdate [⟨some 0, some 2⟩, ⟨some 2, some 5⟩] ["v0", "v1"] true 1
      ⟨-1, none, 0⟩ = (⟨0, some "v0", 1⟩, true) := by
  simp only [handleTimeUpdate, sceneSwitchStep, driftCorrectionStep, engine_idx_at_1]
  norm_num

theorem engine_tick_at_2 :
    handleTimeUpdate [⟨some 0, some 2⟩, ⟨some 2, some 5⟩] ["v0", "v1"] true 2
      ⟨0, some "v0", 2⟩ = (⟨1, some "v1", 2⟩, true) := by
  simp only [handleTimeUpdate, sceneSwitchStep, driftCorrectionStep, engine_idx_at_2]
  norm_num

theorem engine_tick_at_49 :
    handleTimeUpdate [⟨some 0, some 2⟩, ⟨some 2, some 5⟩] ["v0", "v1"] true (49/10)
      ⟨1, some "v1", 49/10⟩ = (⟨1, some "v1", 49/10⟩, false) := by
  simp only [handleTimeUpdate, sceneSwitchStep, driftCorrectionStep, engine_idx_at_49]
  norm_num

theorem engine_tick_at_5 :
    handleTimeUpdate [⟨some 0, some 2⟩, ⟨some 2, some 5⟩] ["v0", "v1"] true 5
      ⟨1, some "v1", 5⟩ = (⟨1, some "v1", 5⟩, false) := by
  simp only [handleTimeUpdate, sceneSwitchStep, driftCorrectionStep, engine_idx_at_5]
  norm_num

/-- C9: on every audio timing update, the computed active scene is the FIRST
cue whose half-open interval `[start, end)` contains the master's current
time (and an index of `-1` means no cue contains it); the video element's
source is reassigned - with playback resumed exactly when the master is
playing - only when that computed index differs from the currently active
index and indexes an available video source; and when no cue contains the
current time the engine leaves the active index and source unchanged and
does not call `play()`: in particular, with cues `[(0,2),(2,5)]` and videos
`[v0,v1]`, time `1` selects `v0`, time `2` switches to `v1`, time `4.9`
keeps `v1`, and time `5` (out of range) keeps the last selected scene. -/
theorem handleTimeUpdate_active_scene (sceneCues : List RawCue)
    (videoUrls : List String) (isPlaying : Bool) (time : ℚ) (st : PlayerState) :
    (∀ i : ℕ, jsFindIndex (cueContains time) sceneCues = (i : ℤ) →
      ∃ h : i < sceneCues.length,
        cueContains time (sceneCues.get ⟨i, h⟩) = true ∧
        ∀ j (hj : j < i),
          cueContains time (sceneCues.get ⟨j, Nat.lt_trans hj h⟩) = false) ∧
    (jsFindIndex (cueContains time) sceneCues = -1 →
      ∀ cue ∈ sceneCues, cueContains time cue = false) ∧
    ((sceneSwitchStep sceneCues videoUrls isPlaying time st).1.videoSrc ≠
        st.videoSrc →
      jsFindIndex (cueContains time) sceneCues ≠ st.currentSceneIndex ∧
      0 ≤ jsFindIndex (cueContains time) sceneCues ∧
      jsFindIndex (cueContains time) sceneCues < (videoUrls.length : ℤ) ∧
      (sceneSwitchStep sceneCues videoUrls isPlaying time st).1.videoSrc =
        videoUrls[(jsFindIndex (cueContains time) sceneCues).toNat]? ∧
      (sceneSwitchStep sceneCues videoUrls isPlaying time st).2 = isPlaying) ∧
    (jsFindIndex (cueContains time) sceneCues = -1 →
      (handleTimeUpdate sceneCues videoUrls isPlaying time st).1.currentSceneIndex =
          st.currentSceneIndex ∧
      (handleTimeUpdate sceneCues videoUrls isPlaying time st).1.videoSrc =
          st.videoSrc ∧
      (handleTimeUpdate sceneCues videoUrls isPlaying time st).2 = false) ∧
    (handleTimeUpdate [⟨some 0, some 2⟩, ⟨some 2, some 5⟩] ["v0", "v1"] true 1
        ⟨-1, none, 0⟩ = (⟨0, some "v0", 1⟩, true) ∧
      handleTimeUpdate [⟨some 0, some 2⟩, ⟨some 2, some 5⟩] ["v0", "v1"] true 2
        ⟨0, some "v0", 2⟩ = (⟨1, some "v1", 2⟩, true) ∧
      handleTimeUpdate [⟨some 0, some 2⟩, ⟨some 2, some 5⟩] ["v0", "v1"] true (49/10)
        ⟨1, some "v1", 49/10⟩ = (⟨1, some "v1", 49/10⟩, false) ∧
      handleTimeUpdate [⟨some 0, some 2⟩, ⟨some 2, some 5⟩] ["v0", "v1"] true 5
        ⟨1, some "v1", 5⟩ = (⟨1, some "v1", 5⟩, false)) := by
  refine ⟨?_, ?_, ?_, ?_,
    engine_tick_at_1, engine_tick_at_2, engine_tick_at_49, engine_tick_at_5⟩
  · intro i hi
    rw [jsFindIndex_eq_coe] at hi
    rcases List.findIdx?_eq_some_iff_getElem.mp hi with ⟨h, hp, hprev⟩
    refine ⟨h, by simpa using hp, ?_⟩
    intro j hj
    have := hprev j hj
    simpa using this
  · intro hmiss
    rw [jsFindIndex_eq_neg_one] at hmiss
    exact List.findIdx?_eq_none_iff.mp hmiss
  · intro hchange
    by_cases hg : jsFindIndex (cueContains time) sceneCues ≠ -1 ∧
        jsFindIndex (cueContains time) sceneCues < (videoUrls.length : ℤ) ∧
        jsFindIndex (cueContains time) sceneCues ≠ st.currentSceneIndex
    · refine ⟨hg.2.2, jsFindIndex_nonneg_of_ne _ _ hg.1, hg.2.1, ?_, ?_⟩
      · simp [sceneSwitchStep, hg]
      · simp [sceneSwitchStep, hg]
    · exact absurd (by simp [sceneSwitchStep, hg]) hchange
  · intro hmiss
    have hs : sceneSwitchStep sceneCues videoUrls isPlaying time st = (st, false) := by
      simp [sceneSwitchStep, hmiss]
    refine ⟨?_, ?_, ?_⟩
    · simp [handleTimeUpdate, hs, (driftCorrectionStep_frame time st).1]
    · simp [handleTimeUpdate, hs, (driftCorrectionStep_frame time st).2]
    · simp [handleTimeUpdate, hs]

/-- C10: drift correction forces the video clock to the master's time
exactly when `|videoTime - masterTime| > 0.5` - a difference of `0.3`
triggers no forced seek, while `0.7` does - and a drift correction changes
only the video clock: the active scene index and the video source are left
unchanged; inside `handleTimeUpdate` it runs after (and independently of)
the scene-switch step. -/
theorem drift_correction_threshold (time : ℚ) (st : PlayerState) :
    ((driftCorrectionStep time st).videoTime =
      if |st.videoTime - time| > 1/2 then time else st.videoTime) ∧
    (driftCorrectionStep time st).currentSceneIndex = st.currentSceneIndex ∧
    (driftCorrectionStep time st).videoSrc = st.videoSrc ∧
    (∀ sceneCues videoUrls isPlaying,
      handleTimeUpdate sceneCues videoUrls isPlaying time st =
        (driftCorrectionStep time
            (sceneSwitchStep sceneCues videoUrls isPlaying time st).1,
          (sceneSwitchStep sceneCues videoUrls isPlaying time st).2)) ∧
    driftCorrectionStep 1 ⟨0, some "v0", 13/10⟩ = ⟨0, some "v0", 13/10⟩ ∧
    driftCorrectionStep 1 ⟨0, some "v0", 17/10⟩ = ⟨0, some "v0", 1⟩ := by
  refine ⟨?_, (driftCorrectionStep_frame time st).1,
    (driftCorrectionStep_frame time st).2, fun _ _ _ => rfl, ?_, ?_⟩
  · unfold driftCorrectionStep
    split <;> rfl
  · have hd : ¬(|(13:ℚ)/10 - 1| > 1/2) := by
      rw [show (13:ℚ)/10 - 1 = 3/10 by norm_num]
      rw [abs_of_nonneg (by norm_num : (0:ℚ) ≤ 3/10)]
      norm_num
    unfold driftCorrectionStep
    rw [if_neg hd]
  · have hd : |(17:ℚ)/10 - 1| > 1/2 := by
      rw [show (17:ℚ)/10 - 1 = 7/10 by norm_num]
      rw [abs_of_nonneg (by norm_num : (0:ℚ) ≤ 7/10)]
      norm_num
    unfold driftCorrectionStep
    rw [if_pos hd]
